import Mathlib

/-!
# Verification of the `use-time-hooks` core engines

This development shallowly embeds the two core engines of the repository —
the retry-with-backoff orchestrator (`useRetry`) and the batching/coalescing
engine (`useBatchedUpdates`) — and proves or refutes the specification's
claims about them.

Conventions of the embedding:
* JavaScript millisecond quantities (delays, windows) are modelled as `ℚ`;
  attempt counters and batch sizes as `ℕ`.
* The wrapped async operation is modelled as a function from the 0-based
  call index to `Except E T` (one prescribed outcome per call).
* The single-threaded event-loop execution of one `execute()` call chain is
  modelled as a recursive function on the attempt number, with the
  cooperative-cancellation flag represented by a `CancelPoint` schedule
  saying at which suspension point (if any) `cancel()` flips the flag.
* Callback invocations (`shouldRetry`, `onRetry`, `onMaxAttemptsReached`,
  `onFlush`, the batch consumer) are logged into explicit lists so that
  "fires exactly once with arguments ..." claims become list equations.
-/

namespace UseTimeHooks

/-- The resolved retry options (`Required<RetryOptions>` after merging with
`DEFAULT_OPTIONS` in `useRetry`).  The three callbacks `onRetry` and
`onMaxAttemptsReached` are pure observers, so they are not stored in the
config; their invocations are logged by the runner instead.  `shouldRetry`
influences control flow and is kept. -/
structure RetryConfig (E : Type) where
  maxAttempts : ℕ
  initialDelay : ℚ
  backoffMultiplier : ℚ
  maxDelay : ℚ
  useExponentialBackoff : Bool
  shouldRetry : E → ℕ → Bool

/-- `DEFAULT_OPTIONS` of `useRetry` (maxAttempts 3, initialDelay 1000,
backoffMultiplier 2, maxDelay 30000, exponential backoff on, always retry). -/
def defaultRetryConfig (E : Type) : RetryConfig E :=
  { maxAttempts := 3
    initialDelay := 1000
    backoffMultiplier := 2
    maxDelay := 30000
    useExponentialBackoff := true
    shouldRetry := fun _ _ => true }

/-- `calculateDelay` of `useRetry`:
```
if (!opts.useExponentialBackoff) return opts.initialDelay;
const delay = opts.initialDelay * Math.pow(opts.backoffMultiplier, attemptNumber - 1);
return Math.min(delay, opts.maxDelay);
```
`Math.pow` with the (possibly negative at 0, in fact always ≥ 0 at call
sites) exponent `attemptNumber - 1` is modelled by `zpow` on `ℚ`. -/
def calculateDelay {E : Type} (cfg : RetryConfig E) (attemptNumber : ℕ) : ℚ :=
  if !cfg.useExponentialBackoff then
    cfg.initialDelay
  else
    min (cfg.initialDelay * cfg.backoffMultiplier ^ ((attemptNumber : ℤ) - 1)) cfg.maxDelay

/-- The published `RetryState` snapshot of `useRetry`.  `lastError` is
`unknown | null`, modelled as `Option E`. -/
structure RetryState (E : Type) where
  isRetrying : Bool
  currentAttempt : ℕ
  lastError : Option E
  timeUntilNextRetry : ℚ
  totalAttempts : ℕ
deriving DecidableEq

/-- The initial `RetryState` installed by `useState` (and restored by `reset`). -/
def initialRetryState (E : Type) : RetryState E :=
  { isRetrying := false
    currentAttempt := 0
    lastError := none
    timeUntilNextRetry := 0
    totalAttempts := 0 }

/-- The state update performed by `cancel()`:
`setState((prev) => ({ ...prev, isRetrying: false, timeUntilNextRetry: 0 }))`. -/
def cancelState {E : Type} (s : RetryState E) : RetryState E :=
  { s with isRetrying := false, timeUntilNextRetry := 0 }

/-- The state update performed by `reset()`: after `cancel()`, the state is
replaced wholesale by the all-zero initial record. -/
def resetState {E : Type} (_s : RetryState E) : RetryState E :=
  initialRetryState E

/-- At which suspension point of one `execute()` call chain `cancel()`
flips `cancelledRef.current`.  The two suspension points of the retry loop
are the in-flight `await operation(...)` of attempt `n` and the backoff
wait after a retryable failure of attempt `n`; `never` means `cancel()` is
not called during the run. -/
inductive CancelPoint where
  | never : CancelPoint
  | duringOp : ℕ → CancelPoint
  | duringWait : ℕ → CancelPoint
deriving DecidableEq

/-- Whether the schedule sets the cancelled flag while the `n`-th operation
call is in flight. -/
def CancelPoint.setDuringOp : CancelPoint → ℕ → Bool
  | .duringOp m, n => m = n
  | _, _ => false

/-- Whether the schedule sets the cancelled flag during the backoff wait
that follows the failed `n`-th attempt (in which case `cancel()` also runs
`clearTimeout(timeoutRef.current)`, so the waiting continuation never
fires). -/
def CancelPoint.setDuringWait : CancelPoint → ℕ → Bool
  | .duringWait m, n => m = n
  | _, _ => false

/-- How the promise returned by `execute()` ends up. -/
inductive RunOutcome (E T : Type) where
  /-- resolves with the operation's result -/
  | success : T → RunOutcome E T
  /-- rejects with an error thrown by the operation -/
  | opError : E → RunOutcome E T
  /-- rejects with the internal `Error('Operation cancelled')` -/
  | cancelledError : RunOutcome E T
  /-- never settles: the pending backoff `setTimeout` was cleared by
  `cancel()`, so neither `resolve` nor `reject` is ever invoked -/
  | hung : RunOutcome E T
deriving DecidableEq

/-- Observable trace of one `execute()` call chain: the settled (or not)
outcome plus the logged callback invocations. -/
structure RunResult (E T : Type) where
  outcome : RunOutcome E T
  /-- number of calls made to the wrapped `operation` -/
  opCalls : ℕ
  /-- arguments of each `opts.shouldRetry(error, attemptNumber)` call -/
  shouldRetryCalls : List (E × ℕ)
  /-- arguments of each `opts.onRetry(error, attemptNumber, nextDelay)` call -/
  onRetryCalls : List (E × ℕ × ℚ)
  /-- arguments of each `opts.onMaxAttemptsReached(lastError, totalAttempts)` call -/
  onMaxAttemptsReachedCalls : List (E × ℕ)
deriving DecidableEq

/-- `attemptOperation(attemptNumber)` of `useRetry`, as the event-loop runs
it.  `op k` prescribes the settlement of the `k`-th call to the wrapped
operation; `cancelled` is the value of `cancelledRef.current` when the
attempt starts; `cp` says where (if anywhere) `cancel()` flips the flag
later.  Faithfully to the source: the success path ignores the flag; on
failure `opts.shouldRetry` is always consulted before the
`!shouldRetry || !hasAttemptsLeft || cancelledRef.current` test;
`onMaxAttemptsReached` fires exactly when `hasAttemptsLeft === false`; a
retryable failure logs `onRetry` and then either hangs (flag flipped during
the wait clears the armed timeout) or recurses on the next attempt. -/
def attemptOperation {E T : Type} (cfg : RetryConfig E) (op : ℕ → Except E T)
    (cp : CancelPoint) (cancelled : Bool) (n : ℕ) : RunResult E T :=
  if cancelled then
    -- `if (cancelledRef.current) throw new Error('Operation cancelled');`
    { outcome := .cancelledError, opCalls := 0, shouldRetryCalls := []
      onRetryCalls := [], onMaxAttemptsReachedCalls := [] }
  else
    let cancelledNow := cp.setDuringOp n
    match op n with
    | .ok t =>
      { outcome := .success t, opCalls := 1, shouldRetryCalls := []
        onRetryCalls := [], onMaxAttemptsReachedCalls := [] }
    | .error e =>
      let sr := cfg.shouldRetry e n
      let hasAttemptsLeft : Bool := n < cfg.maxAttempts
      if h : !sr || !hasAttemptsLeft || cancelledNow then
        { outcome := .opError e, opCalls := 1, shouldRetryCalls := [(e, n)]
          onRetryCalls := []
          onMaxAttemptsReachedCalls :=
            if hasAttemptsLeft then [] else [(e, n + 1)] }
      else
        have hlt : n < cfg.maxAttempts := by
          simp only [Bool.or_eq_true, Bool.not_eq_true', not_or, Bool.not_eq_false] at h
          exact of_decide_eq_true h.1.2
        let delay := calculateDelay cfg (n + 1)
        if cp.setDuringWait n then
          { outcome := .hung, opCalls := 1, shouldRetryCalls := [(e, n)]
            onRetryCalls := [(e, n + 1, delay)], onMaxAttemptsReachedCalls := [] }
        else
          let rest := attemptOperation cfg op cp false (n + 1)
          { outcome := rest.outcome
            opCalls := 1 + rest.opCalls
            shouldRetryCalls := (e, n) :: rest.shouldRetryCalls
            onRetryCalls := (e, n + 1, delay) :: rest.onRetryCalls
            onMaxAttemptsReachedCalls := rest.onMaxAttemptsReachedCalls }
termination_by cfg.maxAttempts - n
decreasing_by
  omega

/-- `execute()` after it has reset `cancelledRef.current = false`:
`return attemptOperation(0);`. -/
def executeRun {E T : Type} (cfg : RetryConfig E) (op : ℕ → Except E T)
    (cp : CancelPoint) : RunResult E T :=
  attemptOperation cfg op cp false 0

/-- Concrete retry configuration of spec property P2: `initialDelay=100`,
`backoffMultiplier=2`, exponential backoff on, other fields default. -/
def retryConfigP2 : RetryConfig ℕ :=
  { maxAttempts := 3
    initialDelay := 100
    backoffMultiplier := 2
    maxDelay := 30000
    useExponentialBackoff := true
    shouldRetry := fun _ _ => true }

/-- A configuration with `useExponentialBackoff = false` whose fixed
`initialDelay` exceeds `maxDelay`.  Nothing in `RetryOptions` forbids it:
the options are merged with defaults and used unvalidated. -/
def retryConfigNoExp : RetryConfig ℕ :=
  { maxAttempts := 3
    initialDelay := 5000
    backoffMultiplier := 2
    maxDelay := 1000
    useExponentialBackoff := false
    shouldRetry := fun _ _ => true }

/-- A configuration with `maxAttempts = 0` (no retries), always-true
`shouldRetry`. -/
def retryConfigZero : RetryConfig ℕ :=
  { maxAttempts := 0
    initialDelay := 1000
    backoffMultiplier := 2
    maxDelay := 30000
    useExponentialBackoff := true
    shouldRetry := fun _ _ => true }

/-- The operation that fails on every call, rejecting with its call index. -/
def alwaysFailOp : ℕ → Except ℕ ℕ := fun i => .error i

lemma zpow_pred_eq_pow_pred (q : ℚ) (k : ℕ) (hk : 1 ≤ k) :
    q ^ ((k : ℤ) - 1) = q ^ (k - 1) := by
  have h : (k : ℤ) - 1 = ((k - 1 : ℕ) : ℤ) := by omega
  rw [h, zpow_natCast]

/-- Unfolded behaviour of `attemptOperation` on a permanently failing
operation under an always-true retry policy and no cancellation, computed
from attempt `n` with `fuel = maxAttempts - n` attempts of budget left. -/
lemma attemptOperation_allFail {E T : Type} (cfg : RetryConfig E) (err : ℕ → E)
    (hsr : ∀ e k, cfg.shouldRetry e k = true) :
    ∀ (fuel n : ℕ), n + fuel = cfg.maxAttempts →
      (attemptOperation cfg (fun i => (Except.error (err i) : Except E T))
          .never false n).outcome = .opError (err cfg.maxAttempts) ∧
      (attemptOperation cfg (fun i => (Except.error (err i) : Except E T))
          .never false n).opCalls = fuel + 1 ∧
      (attemptOperation cfg (fun i => (Except.error (err i) : Except E T))
          .never false n).onMaxAttemptsReachedCalls
        = [(err cfg.maxAttempts, cfg.maxAttempts + 1)] := by
  intro fuel
  induction fuel with
  | zero =>
    intro n hn
    have hn' : n = cfg.maxAttempts := by omega
    subst hn'
    rw [attemptOperation]
    simp [hsr]
  | succ fuel ih =>
    intro n hn
    have hlt : n < cfg.maxAttempts := by omega
    obtain ⟨h1, h2, h3⟩ := ih (n + 1) (by omega)
    rw [attemptOperation]
    simp [hsr, hlt, CancelPoint.setDuringOp, CancelPoint.setDuringWait, h1, h2, h3]
    omega

/-- The run can only fail to settle through the branch in which `cancel()`
clears the armed backoff `setTimeout`. -/
lemma attemptOperation_ne_hung {E T : Type} (cfg : RetryConfig E)
    (op : ℕ → Except E T) (cp : CancelPoint)
    (hcp : ∀ m, cp.setDuringWait m = false) :
    ∀ (fuel n : ℕ) (cancelled : Bool), cfg.maxAttempts - n ≤ fuel →
      (attemptOperation cfg op cp cancelled n).outcome ≠ .hung := by
  intro fuel
  induction fuel with
  | zero =>
    intro n cancelled hn
    rw [attemptOperation]
    rcases cancelled with - | -
    · simp only [Bool.false_eq_true, if_false]
      cases hop : op n with
      | ok t => simp [hop]
      | error e =>
        have : ¬ (n < cfg.maxAttempts) := by omega
        simp [hop, this]
    · simp
  | succ fuel ih =>
    intro n cancelled hn
    rw [attemptOperation]
    rcases cancelled with - | -
    · simp only [Bool.false_eq_true, if_false]
      cases hop : op n with
      | ok t => simp [hop]
      | error e =>
        simp only [hop]
        split
        · simp
        · rw [hcp n]
          simp only [Bool.false_eq_true, if_false]
          exact ih (n + 1) false (by omega)
    · simp

/-- **C1**: for every `maxAttempts = M ≥ 0`, if `shouldRetry` always returns
`true` and the wrapped operation fails on every call, then one `execute()`
call invokes the operation exactly `M + 1` times, invokes
`onMaxAttemptsReached` exactly once with the last error and
`totalAttempts = M + 1`, and the `execute()` promise rejects with the last
error (the error of the `M`-th, 0-based, call). -/
theorem retry_exhausts_attempts {E T : Type} (cfg : RetryConfig E) (err : ℕ → E)
    (M : ℕ) (hM : cfg.maxAttempts = M)
    (hsr : ∀ e k, cfg.shouldRetry e k = true) :
    (executeRun cfg (fun i => (Except.error (err i) : Except E T)) .never).opCalls
        = M + 1 ∧
    (executeRun cfg (fun i => (Except.error (err i) : Except E T))
        .never).onMaxAttemptsReachedCalls = [(err M, M + 1)] ∧
    (executeRun cfg (fun i => (Except.error (err i) : Except E T)) .never).outcome
        = .opError (err M) := by
  subst hM
  obtain ⟨h1, h2, h3⟩ :=
    attemptOperation_allFail (T := T) cfg err hsr cfg.maxAttempts 0 (by omega)
  exact ⟨h2, h3, h1⟩

/-- Witness for `retry_exhausts_attempts`: the default configuration
(`maxAttempts = 3`) with an always-failing operation makes 4 calls, fires
`onMaxAttemptsReached` once with `(3, 4)`, and rejects with error `3`. -/
theorem retry_exhausts_attempts_witness :
    (executeRun (defaultRetryConfig ℕ) (fun i => (Except.error i : Except ℕ ℕ))
        .never).opCalls = 3 + 1 ∧
    (executeRun (defaultRetryConfig ℕ) (fun i => (Except.error i : Except ℕ ℕ))
        .never).onMaxAttemptsReachedCalls = [(3, 3 + 1)] ∧
    (executeRun (defaultRetryConfig ℕ) (fun i => (Except.error i : Except ℕ ℕ))
        .never).outcome = .opError 3 :=
  retry_exhausts_attempts (defaultRetryConfig ℕ) (fun i => i) 3 rfl (fun _ _ => rfl)

/-- **C2**: with exponential backoff the delay before the `k`-th retry
(`k ≥ 1`) is `min(initialDelay * backoffMultiplier^(k-1), maxDelay)`;
without it, the delay is `initialDelay`; and for
`initialDelay=100, backoffMultiplier=2` the first three retry delays are
100, 200, 400 ms. -/
theorem backoff_delay_formula :
    (∀ (E : Type) (cfg : RetryConfig E) (k : ℕ), 1 ≤ k →
        cfg.useExponentialBackoff = true →
        calculateDelay cfg k
          = min (cfg.initialDelay * cfg.backoffMultiplier ^ (k - 1)) cfg.maxDelay) ∧
    (∀ (E : Type) (cfg : RetryConfig E) (k : ℕ),
        cfg.useExponentialBackoff = false →
        calculateDelay cfg k = cfg.initialDelay) ∧
    calculateDelay retryConfigP2 1 = 100 ∧
    calculateDelay retryConfigP2 2 = 200 ∧
    calculateDelay retryConfigP2 3 = 400 := by
  refine ⟨?_, ?_, ?_, ?_, ?_⟩
  · intro E cfg k hk hexp
    unfold calculateDelay
    rw [hexp, zpow_pred_eq_pow_pred _ _ hk]
    simp
  · intro E cfg k hexp
    unfold calculateDelay
    rw [hexp]
    simp
  · norm_num [calculateDelay, retryConfigP2]
  · norm_num [calculateDelay, retryConfigP2]
  · norm_num [calculateDelay, retryConfigP2]

/-- Witness for `backoff_delay_formula`: instantiating the exponential
clause at `retryConfigP2`, `k = 3` gives the closed-form value. -/
theorem backoff_delay_formula_witness :
    calculateDelay retryConfigP2 3
      = min (retryConfigP2.initialDelay * retryConfigP2.backoffMultiplier ^ (3 - 1))
          retryConfigP2.maxDelay :=
  backoff_delay_formula.1 ℕ retryConfigP2 3 (by norm_num) rfl

/-- **C3, counterexample**: with the default configuration and an
always-failing operation, calling `cancel()` during the first backoff wait
clears the armed `setTimeout` whose callback is the only holder of the
pending promise's `resolve`/`reject`, so the `execute()` promise never
settles (`RunOutcome.hung`), contradicting "the returned promise always
settles … including when cancel() is called while the orchestrator is
waiting out a backoff delay". -/
theorem execute_hangs_when_cancelled_during_wait :
    (executeRun (defaultRetryConfig ℕ) alwaysFailOp (.duringWait 0)).outcome
      = .hung := by
  simp [executeRun, attemptOperation, defaultRetryConfig, alwaysFailOp,
    CancelPoint.setDuringOp, CancelPoint.setDuringWait]

/-- **C3, amended**: the `execute()` promise settles — resolves with the
operation's result on success, rejects on exhaustion, policy veto, or
cancellation observed at an attempt boundary — provided `cancel()` is not
called while the orchestrator is waiting out a backoff delay; a cancel
during the backoff wait leaves the promise forever pending. -/
theorem execute_settles_without_wait_cancel {E T : Type} (cfg : RetryConfig E)
    (op : ℕ → Except E T) (cp : CancelPoint)
    (hcp : ∀ m, cp.setDuringWait m = false) :
    (executeRun cfg op cp).outcome ≠ .hung :=
  attemptOperation_ne_hung cfg op cp hcp cfg.maxAttempts 0 false (by omega)

/-- Witness for `execute_settles_without_wait_cancel`: a run with
cancellation during the second operation call (never during a wait)
settles. -/
theorem execute_settles_without_wait_cancel_witness :
    (executeRun (defaultRetryConfig ℕ) alwaysFailOp (.duringOp 1)).outcome
      ≠ .hung :=
  execute_settles_without_wait_cancel (defaultRetryConfig ℕ) alwaysFailOp
    (.duringOp 1) (fun _ => rfl)

/-- **C4, counterexample**: with `maxAttempts = 0` and the cancelled flag
set while the first (and only) operation call is in flight, the failing
attempt still invokes `shouldRetry(error, 0)`, still invokes
`onMaxAttemptsReached(error, 1)`, and rejects with the operation's own
error rather than a cancellation error — contradicting "does not invoke
shouldRetry and does not invoke onMaxAttemptsReached … fails with a
cancellation outcome". -/
theorem cancelled_failure_counterexample :
    (executeRun retryConfigZero alwaysFailOp (.duringOp 0)).shouldRetryCalls
        = [(0, 0)] ∧
    (executeRun retryConfigZero alwaysFailOp (.duringOp 0)).onMaxAttemptsReachedCalls
        = [(0, 1)] ∧
    (executeRun retryConfigZero alwaysFailOp (.duringOp 0)).outcome
        = .opError 0 := by
  refine ⟨?_, ?_, ?_⟩ <;>
    simp [executeRun, attemptOperation, retryConfigZero, alwaysFailOp,
      CancelPoint.setDuringOp, CancelPoint.setDuringWait]

/-- **C4, amended**: when an attempt fails while the cancelled flag is
already set, the orchestrator stops immediately — no further operation
call, no `onRetry` — but it rejects with that attempt's own error (not a
cancellation error), it does invoke `shouldRetry(error, n)` once, and it
does invoke `onMaxAttemptsReached(error, n+1)` when the attempt budget is
exhausted (`n ≥ maxAttempts`). -/
theorem cancelled_failure_behavior {E T : Type} (cfg : RetryConfig E)
    (op : ℕ → Except E T) (n : ℕ) (e : E) (hop : op n = .error e) :
    attemptOperation cfg op (.duringOp n) false n =
      { outcome := .opError e
        opCalls := 1
        shouldRetryCalls := [(e, n)]
        onRetryCalls := []
        onMaxAttemptsReachedCalls :=
          if n < cfg.maxAttempts then [] else [(e, n + 1)] } := by
  rw [attemptOperation]
  simp [hop, CancelPoint.setDuringOp]

/-- Witness for `cancelled_failure_behavior` at attempt 0 of the
`maxAttempts = 0` configuration. -/
theorem cancelled_failure_behavior_witness :
    attemptOperation retryConfigZero alwaysFailOp (.duringOp 0) false 0 =
      { outcome := .opError 0
        opCalls := 1
        shouldRetryCalls := [(0, 0)]
        onRetryCalls := []
        onMaxAttemptsReachedCalls :=
          if 0 < retryConfigZero.maxAttempts then [] else [(0, 0 + 1)] } :=
  cancelled_failure_behavior retryConfigZero alwaysFailOp 0 0 rfl

/-- **C8, counterexample**: with `useExponentialBackoff = false` the
computed delay is the raw `initialDelay`, which nothing clamps to
`maxDelay`: for `initialDelay = 5000, maxDelay = 1000` the delay is 5000,
outside `[0, maxDelay]` — contradicting "for every configuration … the
computed backoff delay lies in `[0, maxDelay]`". -/
theorem delay_exceeds_maxDelay :
    calculateDelay retryConfigNoExp 1 = 5000 ∧ retryConfigNoExp.maxDelay = 1000 ∧
    ¬ calculateDelay retryConfigNoExp 1 ≤ retryConfigNoExp.maxDelay := by
  norm_num [calculateDelay, retryConfigNoExp]

/-- **C8, amended**: for every configuration with
`useExponentialBackoff = true` whose `initialDelay`, `backoffMultiplier`
and `maxDelay` are nonnegative, and every retry index, the computed delay
lies in `[0, maxDelay]`; with `useExponentialBackoff = false` the delay is
the unclamped `initialDelay`. -/
theorem delay_clamped_when_exponential {E : Type} (cfg : RetryConfig E) (k : ℕ)
    (hexp : cfg.useExponentialBackoff = true) (h0 : 0 ≤ cfg.initialDelay)
    (h1 : 0 ≤ cfg.backoffMultiplier) (h2 : 0 ≤ cfg.maxDelay) :
    0 ≤ calculateDelay cfg k ∧ calculateDelay cfg k ≤ cfg.maxDelay := by
  unfold calculateDelay
  rw [hexp]
  simp only [Bool.not_true, Bool.false_eq_true, if_false]
  exact ⟨le_min (mul_nonneg h0 (zpow_nonneg h1 _)) h2, min_le_right _ _⟩

/-- Witness for `delay_clamped_when_exponential` at `retryConfigP2`,
retry index 2. -/
theorem delay_clamped_when_exponential_witness :
    0 ≤ calculateDelay retryConfigP2 2 ∧
    calculateDelay retryConfigP2 2 ≤ retryConfigP2.maxDelay :=
  delay_clamped_when_exponential retryConfigP2 2 rfl (by norm_num [retryConfigP2])
    (by norm_num [retryConfigP2]) (by norm_num [retryConfigP2])

/-- **C10**: `cancel()` rewrites only `isRetrying` (to `false`) and
`timeUntilNextRetry` (to `0`); `currentAttempt`, `lastError` and
`totalAttempts` survive unchanged, so the last observed error and the
attempt counters stay readable after cancellation until `reset()` replaces
the state with its all-zero initial form. -/
theorem cancel_preserves_counters {E : Type} (s : RetryState E) :
    cancelState s =
      { isRetrying := false
        currentAttempt := s.currentAttempt
        lastError := s.lastError
        timeUntilNextRetry := 0
        totalAttempts := s.totalAttempts } ∧
    resetState (cancelState s) = initialRetryState E :=
  ⟨rfl, rfl⟩

/-! ## BatchCoalescer (`useBatchedUpdates`) -/

/-- The resolved batching options of `useBatchedUpdates` after merging with
`DEFAULT_OPTIONS`.  `onFlush` and the consumer callback `onBatchFlush` are
pure observers and are logged by the transition functions instead of being
stored; `reducer` shapes the batch and is kept.  `batchWindow` only fixes
the (abstracted) duration of the auto-flush timer. -/
structure BatchConfig (T : Type) where
  batchWindow : ℚ
  maxBatchSize : ℕ
  flushOnFirst : Bool
  reducer : List T → T → List T

/-- The default batching options: window 100 ms, max size 50, no
flush-on-first, append reducer. -/
def defaultBatchConfig (T : Type) : BatchConfig T :=
  { batchWindow := 100
    maxBatchSize := 50
    flushOnFirst := false
    reducer := fun accumulated newUpdate => accumulated ++ [newUpdate] }

/-- The mutable instance state of one `useBatchedUpdates` hook:
`pendingUpdates`, whether the auto-flush `setTimeout` handle
(`timeoutRef.current`) is armed, and `isFirstUpdateRef.current`. -/
structure BatchState (T : Type) where
  pending : List T
  timerArmed : Bool
  isFirstUpdate : Bool
deriving DecidableEq

/-- The freshly mounted state: empty batch, no timer,
`isFirstUpdateRef.current = true`. -/
def initialBatchState (T : Type) : BatchState T :=
  { pending := [], timerArmed := false, isFirstUpdate := true }

/-- Result of one batch operation: the successor state plus the logged
`opts.onFlush(batchedUpdates, batchSize)` invocations and the logged
consumer (`onBatchFlush`) invocations, in order.  Deliveries scheduled via
`setTimeout(..., 0)` inside `addUpdate` are logged the same way as
synchronous ones; the asynchrony does not reorder them in the
single-threaded model. -/
structure BatchEffect (T : Type) where
  state : BatchState T
  onFlushCalls : List (List T × ℕ)
  consumerCalls : List (List T)
deriving DecidableEq

/-- `flush()` of `useBatchedUpdates` (also the body the auto-flush timer
runs when it fires):
no-op on an empty batch; otherwise `clearTimers()`, deliver a snapshot to
`opts.onFlush` then the consumer, reset the first-update flag, empty the
batch. -/
def flush {T : Type} (s : BatchState T) : BatchEffect T :=
  if s.pending.isEmpty then
    { state := s, onFlushCalls := [], consumerCalls := [] }
  else
    { state := { pending := [], timerArmed := false, isFirstUpdate := true }
      onFlushCalls := [(s.pending, s.pending.length)]
      consumerCalls := [s.pending] }

/-- `addUpdate(update)` of `useBatchedUpdates`.  Faithfully to the source:
* `newUpdates = opts.reducer(prev, update)`;
* if `opts.flushOnFirst && isFirstUpdateRef.current`, schedule
  `onFlush([update], 1)` and `onBatchFlush([update])` (note: the raw
  `[update]`, not `newUpdates`), clear the first-update flag, return `[]`
  — without touching the timers;
* else if `newUpdates.length >= opts.maxBatchSize`, schedule
  `onFlush(newUpdates, newUpdates.length)` and `onBatchFlush(newUpdates)`,
  set the first-update flag, return `[]` — without touching the timers;
* otherwise keep `newUpdates`; if `prev` was empty, `scheduleFlush()`
  (which clears any timers and arms a fresh auto-flush timer); clear the
  first-update flag. -/
def addUpdate {T : Type} (cfg : BatchConfig T) (s : BatchState T) (update : T) :
    BatchEffect T :=
  let newUpdates := cfg.reducer s.pending update
  let shouldFlushOnFirst := cfg.flushOnFirst && s.isFirstUpdate
  let shouldFlushOnSize : Bool := cfg.maxBatchSize ≤ newUpdates.length
  if shouldFlushOnFirst then
    { state := { pending := [], timerArmed := s.timerArmed, isFirstUpdate := false }
      onFlushCalls := [([update], 1)]
      consumerCalls := [[update]] }
  else if shouldFlushOnSize then
    { state := { pending := [], timerArmed := s.timerArmed, isFirstUpdate := true }
      onFlushCalls := [(newUpdates, newUpdates.length)]
      consumerCalls := [newUpdates] }
  else
    { state := { pending := newUpdates
                 timerArmed := if s.pending.isEmpty then true else s.timerArmed
                 isFirstUpdate := false }
      onFlushCalls := []
      consumerCalls := [] }

/-- `clear()` of `useBatchedUpdates`: `clearTimers()`, empty the batch,
reset the first-update flag, deliver nothing. -/
def clear {T : Type} (_s : BatchState T) : BatchEffect T :=
  { state := { pending := [], timerArmed := false, isFirstUpdate := true }
    onFlushCalls := []
    consumerCalls := [] }

/-- The unmount cleanup of `useBatchedUpdates`: the cleanup of the
`[opts]` effect performs one final delivery of the pending items (bypassing
the trigger checks) when the batch is non-empty; the `clearTimers` cleanup
also disarms the timers. -/
def teardown {T : Type} (s : BatchState T) : BatchEffect T :=
  if s.pending.isEmpty then
    { state := { s with timerArmed := false }, onFlushCalls := [], consumerCalls := [] }
  else
    { state := { pending := s.pending, timerArmed := false, isFirstUpdate := s.isFirstUpdate }
      onFlushCalls := [(s.pending, s.pending.length)]
      consumerCalls := [s.pending] }

/-- `maxBatchSize = 2`, defaults otherwise (append reducer, no
flush-on-first). -/
def batchConfigSize2 : BatchConfig ℕ :=
  { batchWindow := 100
    maxBatchSize := 2
    flushOnFirst := false
    reducer := fun accumulated newUpdate => accumulated ++ [newUpdate] }

/-- `maxBatchSize = 3`, defaults otherwise (append reducer, no
flush-on-first), for spec property P6. -/
def batchConfigSize3 (T : Type) : BatchConfig T :=
  { batchWindow := 100
    maxBatchSize := 3
    flushOnFirst := false
    reducer := fun accumulated newUpdate => accumulated ++ [newUpdate] }

/-- `flushOnFirst = true` with a custom reducer that records each update
twice; defaults otherwise. -/
def batchConfigDup : BatchConfig ℕ :=
  { batchWindow := 100
    maxBatchSize := 50
    flushOnFirst := true
    reducer := fun accumulated newUpdate => accumulated ++ [newUpdate, newUpdate] }

/-- **C5, counterexample**: queue one item under `batchConfigSize2` (the
auto-flush timer is armed), then add a second item: the size-triggered
flush delivers the batch, yet `timeoutRef` is untouched — the outstanding
auto-flush timer stays armed — contradicting "every flush … cancels the
outstanding auto-flush timer before (or as part of) delivering the batch".
(The stale timer's later firing hits an empty batch and delivers nothing,
so content is still never delivered twice.) -/
theorem size_flush_keeps_timer_armed :
    ((addUpdate batchConfigSize2 (initialBatchState ℕ) 1).state.timerArmed = true) ∧
    ((addUpdate batchConfigSize2
        (addUpdate batchConfigSize2 (initialBatchState ℕ) 1).state 2).onFlushCalls
      = [([1, 2], 2)]) ∧
    ((addUpdate batchConfigSize2
        (addUpdate batchConfigSize2 (initialBatchState ℕ) 1).state 2).state.timerArmed
      = true) := by
  refine ⟨?_, ?_, ?_⟩ <;> decide

/-- **C5, amended**: a flush triggered inside `addUpdate` (by size or by
flush-on-first) leaves the armed auto-flush timer untouched but empties the
pending batch, so when that stale timer later fires, `flush()` meets an
empty batch and delivers nothing — no batch content is ever delivered
twice; a manual or timer-fired `flush()` on a non-empty batch does cancel
the outstanding timer. -/
theorem addUpdate_flush_no_double_delivery {T : Type} (cfg : BatchConfig T)
    (s : BatchState T) (u : T)
    (h : (addUpdate cfg s u).onFlushCalls ≠ []) :
    (addUpdate cfg s u).state.timerArmed = s.timerArmed ∧
    (addUpdate cfg s u).state.pending = [] ∧
    (flush (addUpdate cfg s u).state).onFlushCalls = [] ∧
    (flush (addUpdate cfg s u).state).consumerCalls = [] ∧
    (s.pending ≠ [] → (flush s).state.timerArmed = false) := by
  refine ⟨?_, ?_, ?_, ?_, ?_⟩
  all_goals simp only [addUpdate] at h ⊢
  all_goals split_ifs at h ⊢ <;> simp_all [flush]

/-- Witness for `addUpdate_flush_no_double_delivery`: the size-triggered
flush of `size_flush_keeps_timer_armed`'s scenario. -/
theorem addUpdate_flush_no_double_delivery_witness :
    (addUpdate batchConfigSize2
        (addUpdate batchConfigSize2 (initialBatchState ℕ) 1).state 2).state.timerArmed
      = (addUpdate batchConfigSize2 (initialBatchState ℕ) 1).state.timerArmed ∧
    (addUpdate batchConfigSize2
        (addUpdate batchConfigSize2 (initialBatchState ℕ) 1).state 2).state.pending = [] ∧
    (flush (addUpdate batchConfigSize2
        (addUpdate batchConfigSize2 (initialBatchState ℕ) 1).state 2).state).onFlushCalls = [] ∧
    (flush (addUpdate batchConfigSize2
        (addUpdate batchConfigSize2 (initialBatchState ℕ) 1).state 2).state).consumerCalls = [] ∧
    ((addUpdate batchConfigSize2 (initialBatchState ℕ) 1).state.pending ≠ [] →
      (flush (addUpdate batchConfigSize2 (initialBatchState ℕ) 1).state).state.timerArmed
        = false) :=
  addUpdate_flush_no_double_delivery batchConfigSize2
    (addUpdate batchConfigSize2 (initialBatchState ℕ) 1).state 2 (by decide)

/-- **C6, counterexample**: with `flushOnFirst = true` and the
duplicating reducer of `batchConfigDup`, the first update `5` is delivered
as the raw singleton `[5]` with size 1, not as the reducer result
`reducer([], 5) = [5, 5]` — contradicting "delivers the single reduced
result — i.e. the value produced by applying the configured reducer to the
current batch and the item". -/
theorem flushOnFirst_ignores_reducer :
    (addUpdate batchConfigDup (initialBatchState ℕ) 5).onFlushCalls = [([5], 1)] ∧
    batchConfigDup.reducer (initialBatchState ℕ).pending 5 = [5, 5] ∧
    (addUpdate batchConfigDup (initialBatchState ℕ) 5).onFlushCalls
      ≠ [(batchConfigDup.reducer (initialBatchState ℕ).pending 5,
          (batchConfigDup.reducer (initialBatchState ℕ).pending 5).length)] := by
  refine ⟨?_, ?_, ?_⟩ <;> decide

/-- **C6, amended**: for every `addUpdate(item)` with `flushOnFirst = true`
on a state whose first-update flag is set, the asynchronously scheduled
flush delivers the raw singleton `[item]` (size 1) — regardless of the
configured reducer — to `onFlush` and the consumer callback, the pending
batch becomes empty, and the first-update flag is cleared. -/
theorem flushOnFirst_delivers_raw_item {T : Type} (cfg : BatchConfig T)
    (s : BatchState T) (u : T)
    (h1 : cfg.flushOnFirst = true) (h2 : s.isFirstUpdate = true) :
    addUpdate cfg s u =
      { state := { pending := [], timerArmed := s.timerArmed, isFirstUpdate := false }
        onFlushCalls := [([u], 1)]
        consumerCalls := [[u]] } := by
  simp [addUpdate, h1, h2]

/-- Witness for `flushOnFirst_delivers_raw_item` on `batchConfigDup` and
the initial state. -/
theorem flushOnFirst_delivers_raw_item_witness :
    addUpdate batchConfigDup (initialBatchState ℕ) 5 =
      { state := { pending := [], timerArmed := (initialBatchState ℕ).timerArmed
                   isFirstUpdate := false }
        onFlushCalls := [([5], 1)]
        consumerCalls := [[5]] } :=
  flushOnFirst_delivers_raw_item batchConfigDup (initialBatchState ℕ) 5 rfl rfl

/-- **C7**: with `maxBatchSize = 3` (append reducer, no flush-on-first), on
any state holding 3 queued items — as arises when they were queued under a
larger `maxBatchSize` before the options changed — adding a 4th item
triggers an immediate flush delivering all 4 items (the reducer result
including the triggering item) to `onFlush` and the consumer, after which
the pending batch is empty. -/
theorem size_flush_on_fourth_item {T : Type} (a b c d : T) (s : BatchState T)
    (h : s.pending = [a, b, c]) :
    (addUpdate (batchConfigSize3 T) s d).onFlushCalls = [([a, b, c, d], 4)] ∧
    (addUpdate (batchConfigSize3 T) s d).consumerCalls = [[a, b, c, d]] ∧
    (addUpdate (batchConfigSize3 T) s d).state.pending = [] := by
  simp [addUpdate, batchConfigSize3, h]

/-- Witness for `size_flush_on_fourth_item` at the state holding
`[0, 1, 2]`. -/
theorem size_flush_on_fourth_item_witness :
    (addUpdate (batchConfigSize3 ℕ) ⟨[0, 1, 2], true, false⟩ 3).onFlushCalls
      = [([0, 1, 2, 3], 4)] ∧
    (addUpdate (batchConfigSize3 ℕ) ⟨[0, 1, 2], true, false⟩ 3).consumerCalls
      = [[0, 1, 2, 3]] ∧
    (addUpdate (batchConfigSize3 ℕ) ⟨[0, 1, 2], true, false⟩ 3).state.pending = [] :=
  size_flush_on_fourth_item 0 1 2 3 ⟨[0, 1, 2], true, false⟩ rfl

/-- **C9**: tearing down an instance whose pending batch holds exactly two
items delivers exactly those two items, exactly once, to `onFlush` (with
size 2) and to the consumer callback, although no `flush()` was called and
the batch window had not elapsed. -/
theorem teardown_flushes_pending {T : Type} (a b : T) (s : BatchState T)
    (h : s.pending = [a, b]) :
    (teardown s).onFlushCalls = [([a, b], 2)] ∧
    (teardown s).consumerCalls = [[a, b]] := by
  simp [teardown, h]

/-- Witness for `teardown_flushes_pending` at the state holding `[7, 8]`
with the batch window still running (timer armed). -/
theorem teardown_flushes_pending_witness :
    (teardown (⟨[7, 8], true, false⟩ : BatchState ℕ)).onFlushCalls = [([7, 8], 2)] ∧
    (teardown (⟨[7, 8], true, false⟩ : BatchState ℕ)).consumerCalls = [[7, 8]] :=
  teardown_flushes_pending 7 8 ⟨[7, 8], true, false⟩ rfl

end UseTimeHooks
